import Mathlib

/-!
Verification of the FamFlix audio-job tracking and stuck-job recovery
subsystem against its natural-language specification.

The job store is a SQLite database (famflix.db). The relevant tables are
embedded as lists of records:
  * story_audio      — one row per (section_id, voice_id) synthesis job;
  * story_sections   — sections of a story, carrying the ordering index;
  * story_narrations — whole-story narration chunks keyed by story_id
    and ordered by section_index / chunk_index.

Statuses are stored in the database as the string literals 'PENDING',
'PROCESSING', 'COMPLETE', 'ERROR'; they are embedded as the enumeration
JobStatus.  Timestamps are integer milliseconds (int(time.time() * 1000)
in the scripts), embedded as Nat.  Nullable columns are Option.

The operations are translated from the repository scripts:
  * recover_audio.py      — force-complete of a stuck PROCESSING job;
  * reset_stuck_audio.py  — force-fail of the stuck jobs of a story;
  * check_story_audio.py  — listing of a story's audio jobs (no ORDER BY);
  * check_story_narrations.py — listing of a story's narration chunks
    (ORDER BY section_index ASC).
A SQL SELECT without ORDER BY is modelled as returning rows in table
order (the order of the embedding list); ORDER BY section_index is
modelled as a stable sort on that column.
-/

/-- Job status enumeration; stored in the database as the corresponding
string literals. -/
inductive JobStatus where
  | PENDING
  | PROCESSING
  | COMPLETE
  | ERROR
deriving DecidableEq, Repr

/-- Terminal statuses: COMPLETE and ERROR. -/
def terminalStatus : JobStatus → Bool
  | JobStatus.COMPLETE => true
  | JobStatus.ERROR => true
  | _ => false

/-- One row of the story_audio table: a per-(section, voice) audio
synthesis job. -/
structure AudioRow where
  section_id : String
  voice_id : String
  status : JobStatus
  audio_url : Option String
  error : Option String
  created_at : Nat
  updated_at : Nat
  completed_at : Option Nat
deriving DecidableEq, Repr

/-- One row of the story_sections table. -/
structure StorySection where
  id : String
  story_id : String
  section_index : Nat
deriving DecidableEq, Repr

/-- One row of the story_narrations table: a narration chunk of a story. -/
structure NarrationRow where
  id : String
  story_id : String
  section_index : Nat
  status : JobStatus
  audio_url : Option String
  error : Option String
  created_at : Nat
  updated_at : Nat
deriving DecidableEq, Repr

/-! ## recover_audio.py (force-complete)

The script runs two SQL statements against story_audio:
  1. SELECT voice_id FROM story_audio
       WHERE section_id = ? AND status = 'PROCESSING'   (fetchone)
  2. UPDATE story_audio
       SET status = 'COMPLETE', audio_url = ?, updated_at = ?, completed_at = ?
       WHERE section_id = ? AND voice_id = ?
If the SELECT returns no row it prints that the entry might have been
updated already and performs no write.  The voice_id bound in the UPDATE
is the one read from the selected row (the script overwrites its
hard-coded guess with row[0]).  Note that the UPDATE's WHERE clause
tests only section_id and voice_id, not status. -/

/-- The read phase: voice_id of the first PROCESSING row of the section
(cursor.fetchone on the SELECT). -/
def recoverRead : List AudioRow → String → Option String
  | [], _ => none
  | r :: rest, sec =>
    if r.section_id = sec ∧ r.status = JobStatus.PROCESSING then some r.voice_id
    else recoverRead rest sec

/-- Field assignments of recover_audio.py's UPDATE: status COMPLETE,
audio_url, updated_at and completed_at set to now. -/
def completeUpdate (r : AudioRow) (url : String) (now : Nat) : AudioRow :=
  { r with status := JobStatus.COMPLETE, audio_url := some url,
           updated_at := now, completed_at := some now }

/-- The write phase: the UPDATE applies to every row matching
section_id and voice_id (no status condition in the WHERE clause). -/
def recoverWrite (store : List AudioRow) (sec v url : String) (now : Nat) :
    List AudioRow :=
  store.map fun r =>
    if r.section_id = sec ∧ r.voice_id = v then completeUpdate r url now else r

/-- The whole script run on one store state: read, then write using the
voice_id read; no write when no PROCESSING row was found. -/
def recover_audio (store : List AudioRow) (sec url : String) (now : Nat) :
    List AudioRow :=
  match recoverRead store sec with
  | none => store
  | some v => recoverWrite store sec v url now

/-- What the script reports: the found voice on the update path, or the
no-op message "No processing entry found ... might have been updated
already" (not an exception). -/
inductive RecoverReport where
  | updated (voice : String)
  | alreadyUpdated
deriving DecidableEq, Repr

/-- Report of a recover_audio.py run. -/
def recover_audio_report (store : List AudioRow) (sec : String) : RecoverReport :=
  match recoverRead store sec with
  | none => RecoverReport.alreadyUpdated
  | some v => RecoverReport.updated v

/-! ## reset_stuck_audio.py (force-fail)

The script runs, for a story:
  1. SELECT sa.section_id FROM story_audio sa
       JOIN story_sections ss ON sa.section_id = ss.id
       WHERE ss.story_id = ? AND sa.status = 'PROCESSING'   (fetchall)
  2. for each returned section_id:
     UPDATE story_audio
       SET status = 'ERROR', error = 'Processing timed out (reset by admin)',
           updated_at = ?
       WHERE section_id = ?
If the SELECT returns no rows it prints "No stuck entries found." and
performs no write.  The UPDATE's WHERE clause tests only section_id:
neither voice_id nor status; and completed_at is not among the SET
columns.  The script samples the clock per iteration; the runs relevant
here are modelled with one clock sample now. -/

/-- The read phase: section_ids of the story's PROCESSING audio rows,
in story_audio table order (section ids assumed unique in
story_sections, as its primary key). -/
def findStuckSections (sections : List StorySection) :
    List AudioRow → String → List String
  | [], _ => []
  | sa :: rest, st =>
    if sa.status = JobStatus.PROCESSING ∧
        ∃ ss ∈ sections, sa.section_id = ss.id ∧ ss.story_id = st then
      sa.section_id :: findStuckSections sections rest st
    else findStuckSections sections rest st

/-- Field assignments of reset_stuck_audio.py's UPDATE: status ERROR,
the fixed administrative error message, updated_at := now; audio_url and
completed_at are not touched. -/
def errorUpdate (r : AudioRow) (now : Nat) : AudioRow :=
  { r with status := JobStatus.ERROR,
           error := some "Processing timed out (reset by admin)",
           updated_at := now }

/-- One UPDATE of the loop: applies to every row of the section,
whatever its voice_id and status. -/
def resetWrite (store : List AudioRow) (sec : String) (now : Nat) :
    List AudioRow :=
  store.map fun r => if r.section_id = sec then errorUpdate r now else r

/-- The whole script run on one store state: find the stuck sections,
then run the UPDATE loop. -/
def reset_stuck_audio (sections : List StorySection) (store : List AudioRow)
    (st : String) (now : Nat) : List AudioRow :=
  (findStuckSections sections store st).foldl
    (fun s sec => resetWrite s sec now) store

/-- What the script reports: the number of stuck entries updated, or
"No stuck entries found." (not an exception). -/
inductive ResetReport where
  | reset (count : Nat)
  | noStuckEntries
deriving DecidableEq, Repr

/-- Report of a reset_stuck_audio.py run. -/
def reset_stuck_audio_report (sections : List StorySection)
    (store : List AudioRow) (st : String) : ResetReport :=
  match findStuckSections sections store st with
  | [] => ResetReport.noStuckEntries
  | l => ResetReport.reset l.length

/-! ## check_story_audio.py and check_story_narrations.py (queries) -/

/-- check_story_audio.py:
SELECT sa... FROM story_audio sa JOIN story_sections ss
  ON sa.section_id = ss.id WHERE ss.story_id = ?
The query has no ORDER BY clause: rows come back in story_audio table
order. -/
def check_story_audio (sections : List StorySection) :
    List AudioRow → String → List AudioRow
  | [], _ => []
  | sa :: rest, st =>
    if ∃ ss ∈ sections, sa.section_id = ss.id ∧ ss.story_id = st then
      sa :: check_story_audio sections rest st
    else check_story_audio sections rest st

/-- Index of a section within its story (story_sections.section_index),
looked up by section id. -/
def sectionIndexOf : List StorySection → String → Option Nat
  | [], _ => none
  | ss :: rest, sid =>
    if ss.id = sid then some ss.section_index else sectionIndexOf rest sid

/-- Ordering used by check_story_narrations.py's ORDER BY clause. -/
def narLE (a b : NarrationRow) : Prop := a.section_index ≤ b.section_index

instance : DecidableRel narLE := fun a b => Nat.decLe a.section_index b.section_index

instance : IsTotal NarrationRow narLE :=
  ⟨fun a b => Nat.le_total a.section_index b.section_index⟩

instance : IsTrans NarrationRow narLE :=
  ⟨fun _ _ _ h h2 => Nat.le_trans h h2⟩

/-- The WHERE story_id = ? filter of check_story_narrations.py, in table
order. -/
def narRowsOf : List NarrationRow → String → List NarrationRow
  | [], _ => []
  | r :: rest, st =>
    if r.story_id = st then r :: narRowsOf rest st
    else narRowsOf rest st

/-- check_story_narrations.py:
SELECT ... FROM story_narrations WHERE story_id = ?
  ORDER BY section_index ASC. -/
def check_story_narrations (store : List NarrationRow) (st : String) :
    List NarrationRow :=
  List.insertionSort narLE (narRowsOf store st)

/-! ## Spec-modelled Job Store operations

The worker path — job creation and the worker's status updates — lives
in the web application, outside this repository's scripts; only its
effects on the database are visible to them.  The following definitions
model that missing part from the specification. -/

/-- Error taxonomy of the Job Store operations (spec sections 4.1, 4.2). -/
inductive StoreError where
  | DuplicateActiveJob
  | StaleStatus
  | IllegalTransition
  | NotFound
deriving DecidableEq, Repr

/-- Modelled from the spec: section 4.2 Status State Machine edges,
PENDING -> PROCESSING -> COMPLETE | ERROR.  No other pair is a legal
worker-path transition. -/
def legalEdge : JobStatus → JobStatus → Bool
  | JobStatus.PENDING, JobStatus.PROCESSING => true
  | JobStatus.PROCESSING, JobStatus.COMPLETE => true
  | JobStatus.PROCESSING, JobStatus.ERROR => true
  | _, _ => false

/-- Modelled from the spec: the single guarded transition function of
section 4.2.  A requested transition along a listed edge succeeds; any
other attempted transition fails with IllegalTransition. -/
def applyTransition (cur req : JobStatus) : Except StoreError JobStatus :=
  if legalEdge cur req then Except.ok req
  else Except.error StoreError.IllegalTransition

/-- The legal-edge step relation on statuses. -/
def stepRel (a b : JobStatus) : Prop := legalEdge a b = true

/-- Running a sequence of attempted worker transitions; a failed attempt
leaves the status unchanged (the error is surfaced, not applied). -/
def applyOps (init : JobStatus) (ops : List JobStatus) : JobStatus :=
  ops.foldl
    (fun cur req =>
      match applyTransition cur req with
      | Except.ok s => s
      | Except.error _ => cur)
    init

/-- Modelled from the spec: the generalized Job abstraction of section 3,
keyed by an opaque composite key (target_id, voice_id). -/
structure Job where
  key : String
  voice_id : Option String
  status : JobStatus
  created_at : Nat
  updated_at : Nat
deriving DecidableEq, Repr

/-- A non-terminal (PENDING or PROCESSING) job exists for the key. -/
def hasActive (store : List Job) (k : String) : Prop :=
  ∃ j ∈ store, j.key = k ∧ terminalStatus j.status = false

instance (store : List Job) (k : String) : Decidable (hasActive store k) :=
  List.decidableBEx _ store

/-- Modelled from the spec: section 4.1 create(key, voice_id) — fails
with DuplicateActiveJob if a non-terminal job already exists for the
key; otherwise appends a fresh independent PENDING record. -/
def create (store : List Job) (k : String) (v : Option String) (now : Nat) :
    Except StoreError (List Job) :=
  if hasActive store k then Except.error StoreError.DuplicateActiveJob
  else Except.ok (store ++ [Job.mk k v JobStatus.PENDING now now])

/-- At most one non-terminal job per key. -/
def atMostOneActive (store : List Job) : Prop :=
  store.Pairwise fun a b =>
    ¬(a.key = b.key ∧ terminalStatus a.status = false ∧
      terminalStatus b.status = false)

/-! ## Helper lemmas -/

theorem completeUpdate_section_id (r : AudioRow) (url : String) (now : Nat) :
    (completeUpdate r url now).section_id = r.section_id := rfl

theorem completeUpdate_voice_id (r : AudioRow) (url : String) (now : Nat) :
    (completeUpdate r url now).voice_id = r.voice_id := rfl

theorem errorUpdate_section_id (r : AudioRow) (now : Nat) :
    (errorUpdate r now).section_id = r.section_id := rfl

theorem errorUpdate_idem (r : AudioRow) (now : Nat) :
    errorUpdate (errorUpdate r now) now = errorUpdate r now := rfl

/-- A successful read of recover_audio.py returns the voice_id of a stored
PROCESSING row of the section. -/
theorem recoverRead_eq_some {store : List AudioRow} {sec v : String}
    (h : recoverRead store sec = some v) :
    ∃ r ∈ store, r.section_id = sec ∧ r.status = JobStatus.PROCESSING ∧
      r.voice_id = v := by
  induction store with
  | nil => simp [recoverRead] at h
  | cons r rest ih =>
    by_cases hc : r.section_id = sec ∧ r.status = JobStatus.PROCESSING
    · refine ⟨r, List.mem_cons_self r rest, hc.1, hc.2, ?_⟩
      unfold recoverRead at h
      rw [if_pos hc] at h
      exact Option.some.inj h
    · unfold recoverRead at h
      rw [if_neg hc] at h
      obtain ⟨r0, hr0, h1, h2, h3⟩ := ih h
      exact ⟨r0, List.mem_cons_of_mem _ hr0, h1, h2, h3⟩

/-- The read comes back empty exactly when the section has no PROCESSING
row. -/
theorem recoverRead_eq_none {store : List AudioRow} {sec : String} :
    recoverRead store sec = none ↔
      ∀ r ∈ store, r.section_id = sec → r.status ≠ JobStatus.PROCESSING := by
  induction store with
  | nil => simp [recoverRead]
  | cons r rest ih =>
    by_cases hc : r.section_id = sec ∧ r.status = JobStatus.PROCESSING
    · unfold recoverRead
      rw [if_pos hc]
      simp only [List.mem_cons]
      constructor
      · intro h
        exact absurd h (by simp)
      · intro h
        exact absurd hc.2 (h r (Or.inl rfl) hc.1)
    · unfold recoverRead
      rw [if_neg hc]
      rw [ih]
      simp only [List.mem_cons]
      constructor
      · intro h r0 hr0 hsec
        cases hr0 with
        | inl he =>
          subst he
          intro hp
          exact hc ⟨hsec, hp⟩
        | inr hm => exact h r0 hm hsec
      · intro h r0 hr0 hsec
        exact h r0 (Or.inr hr0) hsec

/-- Looking up the job for a (section_id, voice_id) key: the first row of
the store carrying that key. -/
def getJob : List AudioRow → String → String → Option AudioRow
  | [], _, _ => none
  | r :: rest, sec, v =>
    if r.section_id = sec ∧ r.voice_id = v then some r else getJob rest sec v

/-- The UPDATE of recover_audio.py rewrites exactly the looked-up row of
its key. -/
theorem getJob_recoverWrite (store : List AudioRow) (sec v url : String)
    (now : Nat) :
    getJob (recoverWrite store sec v url now) sec v =
      (getJob store sec v).map (fun r => completeUpdate r url now) := by
  induction store with
  | nil => rfl
  | cons r rest ih =>
    unfold recoverWrite at *
    rw [List.map_cons]
    by_cases hc : r.section_id = sec ∧ r.voice_id = v
    · rw [if_pos hc]
      unfold getJob
      rw [if_pos hc, if_pos (by exact ⟨hc.1, hc.2⟩ : (completeUpdate r url now).section_id = sec ∧ (completeUpdate r url now).voice_id = v)]
      rfl
    · rw [if_neg hc]
      unfold getJob
      rw [if_neg hc, if_neg hc]
      exact ih

/-- Membership in the stuck-section list of reset_stuck_audio.py: exactly
the sections of the story owning a PROCESSING audio row.  No timestamp
enters the condition. -/
theorem mem_findStuckSections {sections : List StorySection}
    {store : List AudioRow} {st s : String} :
    s ∈ findStuckSections sections store st ↔
      ∃ sa ∈ store, sa.section_id = s ∧ sa.status = JobStatus.PROCESSING ∧
        ∃ ss ∈ sections, sa.section_id = ss.id ∧ ss.story_id = st := by
  induction store with
  | nil => simp [findStuckSections]
  | cons sa rest ih =>
    by_cases hc : sa.status = JobStatus.PROCESSING ∧
        ∃ ss ∈ sections, sa.section_id = ss.id ∧ ss.story_id = st
    · unfold findStuckSections
      rw [if_pos hc]
      simp only [List.mem_cons, ih]
      constructor
      · intro h
        cases h with
        | inl he => exact ⟨sa, Or.inl rfl, he.symm, hc.1, hc.2⟩
        | inr hm =>
          obtain ⟨sa0, hm0, h1, h2, h3⟩ := hm
          exact ⟨sa0, Or.inr hm0, h1, h2, h3⟩
      · intro h
        obtain ⟨sa0, hm0, h1, h2, h3⟩ := h
        cases hm0 with
        | inl he =>
          subst he
          exact Or.inl h1.symm
        | inr hm => exact Or.inr ⟨sa0, hm, h1, h2, h3⟩
    · unfold findStuckSections
      rw [if_neg hc]
      rw [ih]
      constructor
      · intro h
        obtain ⟨sa0, hm0, h1, h2, h3⟩ := h
        exact ⟨sa0, List.mem_cons_of_mem _ hm0, h1, h2, h3⟩
      · intro h
        obtain ⟨sa0, hm0, h1, h2, h3⟩ := h
        cases List.mem_cons.mp hm0 with
        | inl he =>
          subst he
          exact absurd ⟨h2, h3⟩ hc
        | inr hm => exact ⟨sa0, hm, h1, h2, h3⟩

/-- The effect of running reset_stuck_audio.py's UPDATE loop over a list
of section ids: every row of a listed section gets the ERROR rewrite. -/
def resetAll (store : List AudioRow) (L : List String) (now : Nat) :
    List AudioRow :=
  store.map fun r => if r.section_id ∈ L then errorUpdate r now else r

theorem resetAll_nil (store : List AudioRow) (now : Nat) :
    resetAll store [] now = store := by
  unfold resetAll
  simp

theorem resetWrite_resetAll (store : List AudioRow) (sec : String)
    (L : List String) (now : Nat) :
    resetAll (resetWrite store sec now) L now = resetAll store (sec :: L) now := by
  unfold resetAll resetWrite
  rw [List.map_map]
  apply List.map_congr_left
  intro r _
  by_cases h : r.section_id = sec
  · have hmem : r.section_id ∈ sec :: L := by
      rw [h]
      exact List.mem_cons_self sec L
    simp only [Function.comp_apply, if_pos h, errorUpdate_section_id,
      if_pos hmem]
    by_cases hL : r.section_id ∈ L
    · rw [if_pos (by rw [h] at hL ⊢; exact hL)]
      exact errorUpdate_idem r now
    · rw [if_neg (by rw [h] at hL ⊢; exact hL)]
  · simp only [Function.comp_apply, if_neg h]
    by_cases hL : r.section_id ∈ L
    · rw [if_pos hL, if_pos (List.mem_cons_of_mem sec hL)]
    · rw [if_neg hL, if_neg (by
        intro hm
        cases List.mem_cons.mp hm with
        | inl he => exact h he
        | inr hr => exact hL hr)]

theorem foldl_resetWrite (L : List String) (store : List AudioRow)
    (now : Nat) :
    L.foldl (fun s sec => resetWrite s sec now) store = resetAll store L now := by
  induction L generalizing store with
  | nil => exact (resetAll_nil store now).symm
  | cons sec rest ih =>
    rw [List.foldl_cons, ih (resetWrite store sec now),
      resetWrite_resetAll]

/-- The whole force-fail run, characterized as one map over the store:
a row is rewritten to ERROR exactly when its section is in the stuck
list computed by the initial read. -/
theorem reset_stuck_audio_eq_resetAll (sections : List StorySection)
    (store : List AudioRow) (st : String) (now : Nat) :
    reset_stuck_audio sections store st now =
      resetAll store (findStuckSections sections store st) now := by
  unfold reset_stuck_audio
  exact foldl_resetWrite _ store now

/-- Key uniqueness of the store: (section_id, voice_id) is the primary
key of story_audio, so no two rows share it. -/
def keysUnique (store : List AudioRow) : Prop :=
  store.Pairwise fun a b => a.section_id ≠ b.section_id ∨ a.voice_id ≠ b.voice_id

instance (store : List AudioRow) : Decidable (keysUnique store) :=
  List.instDecidablePairwise store

theorem keysUnique_eq {store : List AudioRow} (hu : keysUnique store)
    {r1 r2 : AudioRow} (h1 : r1 ∈ store) (h2 : r2 ∈ store)
    (hs : r1.section_id = r2.section_id) (hv : r1.voice_id = r2.voice_id) :
    r1 = r2 := by
  by_cases he : r1 = r2
  · exact he
  · have hsym : Symmetric fun a b : AudioRow =>
        a.section_id ≠ b.section_id ∨ a.voice_id ≠ b.voice_id := by
      intro a b h
      exact h.imp Ne.symm Ne.symm
    have := List.Pairwise.forall hsym hu h1 h2 he
    cases this with
    | inl h => exact absurd hs h
    | inr h => exact absurd hv h

/-- Membership in the story filter of check_story_narrations.py. -/
theorem mem_narRowsOf {store : List NarrationRow} {st : String}
    {r : NarrationRow} :
    r ∈ narRowsOf store st ↔ r ∈ store ∧ r.story_id = st := by
  induction store with
  | nil => simp [narRowsOf]
  | cons r0 rest ih =>
    by_cases hc : r0.story_id = st
    · unfold narRowsOf
      rw [if_pos hc]
      simp only [List.mem_cons, ih]
      constructor
      · intro h
        cases h with
        | inl he =>
          subst he
          exact ⟨Or.inl rfl, hc⟩
        | inr hm => exact ⟨Or.inr hm.1, hm.2⟩
      · intro h
        cases h.1 with
        | inl he => exact Or.inl he
        | inr hm => exact Or.inr ⟨hm, h.2⟩
    · unfold narRowsOf
      rw [if_neg hc]
      rw [ih]
      constructor
      · intro h
        exact ⟨List.mem_cons_of_mem r0 h.1, h.2⟩
      · intro h
        cases List.mem_cons.mp h.1 with
        | inl he =>
          subst he
          exact absurd h.2 hc
        | inr hm => exact ⟨hm, h.2⟩

/-! ## Concrete stores for the scenario claims -/

/-- The spec scenario job: (section "sec-1", voice "v-1") created at t=0,
transitioned to PROCESSING at t=1, never updated again. -/
def stuckJob : AudioRow :=
  { section_id := "sec-1", voice_id := "v-1", status := JobStatus.PROCESSING,
    audio_url := none, error := none, created_at := 0, updated_at := 1,
    completed_at := none }

/-- The story owning the scenario section. -/
def storySections1 : List StorySection :=
  [{ id := "sec-1", story_id := "story-1", section_index := 0 }]

/-- C2: the claim fails on the code.  reset_stuck_audio.py run at t=301
on the spec's stuck job writes status, error and updated_at — but its
UPDATE has no completed_at column, so the resulting ERROR record has
completed_at = none, not 301 as the claim requires. -/
theorem C2_counterexample :
    reset_stuck_audio storySections1 [stuckJob] "story-1" 301 =
      [errorUpdate stuckJob 301] ∧
    (errorUpdate stuckJob 301).status = JobStatus.ERROR ∧
    (reset_stuck_audio storySections1 [stuckJob] "story-1" 301).map
        AudioRow.completed_at = [none] ∧
    ¬ (reset_stuck_audio storySections1 [stuckJob] "story-1" 301).map
        AudioRow.completed_at = [some 301] := by
  refine ⟨by decide, by decide, by decide, by decide⟩

/-- C2 (amended): for every job whose stored status is PROCESSING and
whose section belongs to the story, force-fail sets status = ERROR,
error to the fixed administrative message and updated_at to now, and
leaves completed_at unchanged (it is not set to the completion time). -/
theorem C2_force_fail_fields (sections : List StorySection)
    (store : List AudioRow) (st : String) (now : Nat) (i : Fin store.length)
    (hp : (store.get i).status = JobStatus.PROCESSING)
    (hss : ∃ ss ∈ sections, (store.get i).section_id = ss.id ∧
      ss.story_id = st) :
    ∃ h : (reset_stuck_audio sections store st now).length = store.length,
      (reset_stuck_audio sections store st now).get (Fin.cast h.symm i) =
        errorUpdate (store.get i) now ∧
      (errorUpdate (store.get i) now).status = JobStatus.ERROR ∧
      (errorUpdate (store.get i) now).error =
        some "Processing timed out (reset by admin)" ∧
      (errorUpdate (store.get i) now).updated_at = now ∧
      (errorUpdate (store.get i) now).completed_at =
        (store.get i).completed_at := by
  rw [reset_stuck_audio_eq_resetAll]
  unfold resetAll
  have hmem : (store.get i).section_id ∈ findStuckSections sections store st :=
    mem_findStuckSections.mpr ⟨store.get i, List.get_mem store i.1 i.2, rfl,
      hp, hss⟩
  refine ⟨by simp, ?_, rfl, rfl, rfl, rfl⟩
  simp only [List.get_eq_getElem, Fin.coe_cast, List.getElem_map]
  exact if_pos hmem

/-- Witness for C2_force_fail_fields: the spec scenario store at t=301. -/
theorem C2_force_fail_fields_witness :
    ∃ h : (reset_stuck_audio storySections1 [stuckJob] "story-1" 301).length =
        [stuckJob].length,
      (reset_stuck_audio storySections1 [stuckJob] "story-1" 301).get
          (Fin.cast h.symm ⟨0, Nat.one_pos⟩) =
        errorUpdate ([stuckJob].get ⟨0, Nat.one_pos⟩) 301 ∧
      (errorUpdate ([stuckJob].get ⟨0, Nat.one_pos⟩) 301).status =
        JobStatus.ERROR ∧
      (errorUpdate ([stuckJob].get ⟨0, Nat.one_pos⟩) 301).error =
        some "Processing timed out (reset by admin)" ∧
      (errorUpdate ([stuckJob].get ⟨0, Nat.one_pos⟩) 301).updated_at = 301 ∧
      (errorUpdate ([stuckJob].get ⟨0, Nat.one_pos⟩) 301).completed_at =
        ([stuckJob].get ⟨0, Nat.one_pos⟩).completed_at :=
  C2_force_fail_fields storySections1 [stuckJob] "story-1" 301
    ⟨0, Nat.one_pos⟩ (by decide) (by decide)

/-- C3: for a job whose stored status is PROCESSING and which the read
of recover_audio.py selects, force-complete with artifact location url
rewrites the job's record to status = COMPLETE, audio_url = url,
completed_at = now (and updated_at = now). -/
theorem C3_force_complete (store : List AudioRow) (sec url v : String)
    (now : Nat) (r : AudioRow)
    (hv : recoverRead store sec = some v)
    (hr : getJob store sec v = some r)
    (hp : r.status = JobStatus.PROCESSING) :
    getJob (recover_audio store sec url now) sec v =
      some (completeUpdate r url now) ∧
    (completeUpdate r url now).status = JobStatus.COMPLETE ∧
    (completeUpdate r url now).audio_url = some url ∧
    (completeUpdate r url now).completed_at = some now ∧
    (completeUpdate r url now).updated_at = now := by
  refine ⟨?_, rfl, rfl, rfl, rfl⟩
  unfold recover_audio
  rw [hv]
  rw [getJob_recoverWrite, hr]
  rfl

/-- The stuck job completed out of band: artifact /audio/x.wav exists. -/
def recoveredUrl : String := "/audio/x.wav"

/-- Witness for C3_force_complete: the spec scenario store, recovered
with force-complete at t=301. -/
theorem C3_force_complete_witness :
    getJob (recover_audio [stuckJob] "sec-1" recoveredUrl 301) "sec-1" "v-1" =
      some (completeUpdate stuckJob recoveredUrl 301) ∧
    (completeUpdate stuckJob recoveredUrl 301).status = JobStatus.COMPLETE ∧
    (completeUpdate stuckJob recoveredUrl 301).audio_url =
      some recoveredUrl ∧
    (completeUpdate stuckJob recoveredUrl 301).completed_at = some 301 ∧
    (completeUpdate stuckJob recoveredUrl 301).updated_at = 301 :=
  C3_force_complete [stuckJob] "sec-1" recoveredUrl "v-1" 301 stuckJob
    (by decide) (by decide) (by decide)

/-- A PROCESSING job whose updated_at is within the timeout: at now=301
with timeout=300, updated_at = now - timeout + 1 = 2, so
now - updated_at = 299, not greater than the timeout. -/
def freshJob : AudioRow :=
  { section_id := "sec-f", voice_id := "v-1", status := JobStatus.PROCESSING,
    audio_url := none, error := none, created_at := 0, updated_at := 2,
    completed_at := none }

/-- The story owning the fresh job's section. -/
def storySectionsF : List StorySection :=
  [{ id := "sec-f", story_id := "story-f", section_index := 0 }]

/-- C4: the claim fails on the code.  The stuck-entry query of
reset_stuck_audio.py filters only on story and status = PROCESSING; it
takes no timeout and never consults updated_at, so the PROCESSING job
with updated_at = now - timeout + 1 (not stale) is returned anyway. -/
theorem C4_counterexample :
    findStuckSections storySectionsF [freshJob] "story-f" = ["sec-f"] ∧
    ¬ (301 - freshJob.updated_at > 300) := by
  refine ⟨by decide, by decide⟩

/-- C4 (amended): the stuck-entry query returns exactly the story's
jobs with status = PROCESSING — with no staleness condition: membership
does not depend on updated_at, now or a timeout.  The query is a pure
read with no effect on the store. -/
theorem C4_findStuck_spec (sections : List StorySection)
    (store : List AudioRow) (st s : String) :
    s ∈ findStuckSections sections store st ↔
      ∃ sa ∈ store, sa.section_id = s ∧ sa.status = JobStatus.PROCESSING ∧
        ∃ ss ∈ sections, sa.section_id = ss.id ∧ ss.story_id = st :=
  mem_findStuckSections

/-- Witness for C4_findStuck_spec: the stale spec-scenario job is
returned. -/
theorem C4_findStuck_spec_witness :
    "sec-1" ∈ findStuckSections storySections1 [stuckJob] "story-1" :=
  (C4_findStuck_spec storySections1 [stuckJob] "story-1" "sec-1").mpr
    (by decide)

/-- A job of section sec-9 that already reached COMPLETE, with its
artifact recorded. -/
def doneRow : AudioRow :=
  { section_id := "sec-9", voice_id := "v-A", status := JobStatus.COMPLETE,
    audio_url := some "/api/audio/done.wav", error := none, created_at := 0,
    updated_at := 50, completed_at := some 50 }

/-- A second job of section sec-9, for another voice, stuck in
PROCESSING. -/
def stuckRow9 : AudioRow :=
  { section_id := "sec-9", voice_id := "v-B", status := JobStatus.PROCESSING,
    audio_url := none, error := none, created_at := 10, updated_at := 11,
    completed_at := none }

/-- The story owning section sec-9. -/
def storySections9 : List StorySection :=
  [{ id := "sec-9", story_id := "story-9", section_index := 0 }]

/-- C1: the claim fails on the code.  Force-fail's write is conditioned
only on section_id — not on stored status at write time.  The COMPLETE
job (sec-9, v-A) is not PROCESSING, yet the force-fail run visibly
rewrites it (to ERROR): the status change is not a conditional write
guarded by stored status = PROCESSING. -/
theorem C1_counterexample :
    doneRow.status ≠ JobStatus.PROCESSING ∧
    reset_stuck_audio storySections9 [doneRow, stuckRow9] "story-9" 400 =
      [errorUpdate doneRow 400, errorUpdate stuckRow9 400] ∧
    errorUpdate doneRow 400 ≠ doneRow := by
  refine ⟨by decide, by decide, by decide⟩

/-- C1 (amended): the remedies are guarded by a separate read, not by
the write: when the read finds no PROCESSING row the operation performs
no write at all and reports the no-op as success (already-updated / no
stuck entries); when it does find rows, the subsequent writes are
conditioned only on (section_id, voice_id) (force-complete) or
section_id alone (force-fail) — force-fail rewriting every row of each
listed section whatever its stored status. -/
theorem C1_guarded_at_read (store : List AudioRow)
    (sections : List StorySection) (sec st url : String) (now : Nat) :
    (recoverRead store sec = none →
      recover_audio store sec url now = store ∧
      recover_audio_report store sec = RecoverReport.alreadyUpdated) ∧
    (findStuckSections sections store st = [] →
      reset_stuck_audio sections store st now = store ∧
      reset_stuck_audio_report sections store st = ResetReport.noStuckEntries) ∧
    reset_stuck_audio sections store st now =
      resetAll store (findStuckSections sections store st) now := by
  refine ⟨?_, ?_, reset_stuck_audio_eq_resetAll sections store st now⟩
  · intro h
    unfold recover_audio recover_audio_report
    rw [h]
    exact ⟨rfl, rfl⟩
  · intro h
    unfold reset_stuck_audio reset_stuck_audio_report
    rw [h]
    exact ⟨rfl, rfl⟩

/-- Witness for C1_guarded_at_read: a store whose only section-9 rows
are terminal is untouched and the no-op is reported as success. -/
theorem C1_guarded_at_read_witness :
    (recover_audio [doneRow] "sec-9" "/audio/y.wav" 500 = [doneRow] ∧
      recover_audio_report [doneRow] "sec-9" = RecoverReport.alreadyUpdated) ∧
    (reset_stuck_audio [] [doneRow] "story-9" 500 = [doneRow] ∧
      reset_stuck_audio_report [] [doneRow] "story-9" =
        ResetReport.noStuckEntries) :=
  ⟨(C1_guarded_at_read [doneRow] [] "sec-9" "story-9" "/audio/y.wav" 500).1
      (by decide),
    (C1_guarded_at_read [doneRow] [] "sec-9" "story-9" "/audio/y.wav" 500).2.1
      (by decide)⟩

/-! ## The data invariant of spec section 3 -/

/-- Row-level invariant: audio_url set only when status = COMPLETE, and
error set only when status = ERROR (each stated as a disjunction with
the field being null). -/
def rowInv (r : AudioRow) : Prop :=
  (r.status = JobStatus.COMPLETE ∨ r.audio_url = none) ∧
  (r.status = JobStatus.ERROR ∨ r.error = none)

instance : DecidablePred rowInv := fun r => by
  unfold rowInv
  infer_instance

/-- Store-level invariant: every row satisfies rowInv. -/
def storeInv (store : List AudioRow) : Prop := ∀ r ∈ store, rowInv r

instance (store : List AudioRow) : Decidable (storeInv store) :=
  List.decidableBAll _ store

/-- C6: the claim fails on the code.  Starting from an
invariant-satisfying store in which section sec-9 has both a COMPLETE
row (audio_url set) and a PROCESSING row, force-fail rewrites every row
of the section: the formerly COMPLETE row becomes an ERROR record still
carrying its audio_url — audio_url set while status = ERROR. -/
theorem C6_counterexample :
    storeInv [doneRow, stuckRow9] ∧
    (reset_stuck_audio storySections9 [doneRow, stuckRow9] "story-9" 400).map
        (fun r => (r.status, r.audio_url)) =
      [(JobStatus.ERROR, some "/api/audio/done.wav"),
        (JobStatus.ERROR, none)] ∧
    ¬ storeInv
        (reset_stuck_audio storySections9 [doneRow, stuckRow9] "story-9" 400) := by
  refine ⟨by decide, by decide, by decide⟩

/-- C6 (amended): force-complete preserves the invariant on a store with
unique (section_id, voice_id) keys; force-fail preserves it provided
every row of each stuck section is itself PROCESSING (its writes leave
audio_url in place, so a terminal row sharing a stuck section breaks the
invariant, as the counterexample shows). -/
theorem C6_invariant_preservation (store : List AudioRow) :
    (∀ sec url now, storeInv store → keysUnique store →
      storeInv (recover_audio store sec url now)) ∧
    (∀ sections st now, storeInv store →
      (∀ r ∈ store, r.section_id ∈ findStuckSections sections store st →
        r.status = JobStatus.PROCESSING) →
      storeInv (reset_stuck_audio sections store st now)) := by
  constructor
  · intro sec url now hinv hu
    unfold recover_audio
    cases hv : recoverRead store sec with
    | none => exact hinv
    | some v =>
      obtain ⟨r0, hr0, h1, h2, h3⟩ := recoverRead_eq_some hv
      unfold recoverWrite storeInv
      intro x hx
      rw [List.mem_map] at hx
      obtain ⟨r, hr, heq⟩ := hx
      by_cases hc : r.section_id = sec ∧ r.voice_id = v
      · have hre : r = r0 :=
          keysUnique_eq hu hr hr0 (hc.1.trans h1.symm) (hc.2.trans h3.symm)
        have hproc : r.status = JobStatus.PROCESSING := by
          rw [hre]
          exact h2
        have herr : r.error = none := by
          cases (hinv r hr).2 with
          | inl h =>
            rw [hproc] at h
            exact absurd h (by decide)
          | inr h => exact h
        rw [← heq, if_pos hc]
        exact ⟨Or.inl rfl, Or.inr herr⟩
      · rw [← heq, if_neg hc]
        exact hinv r hr
  · intro sections st now hinv hP
    rw [reset_stuck_audio_eq_resetAll]
    unfold resetAll storeInv
    intro x hx
    rw [List.mem_map] at hx
    obtain ⟨r, hr, heq⟩ := hx
    by_cases hc : r.section_id ∈ findStuckSections sections store st
    · have hurl : r.audio_url = none := by
        cases (hinv r hr).1 with
        | inl h =>
          rw [hP r hr hc] at h
          exact absurd h (by decide)
        | inr h => exact h
      rw [← heq, if_pos hc]
      exact ⟨Or.inr hurl, Or.inl rfl⟩
    · rw [← heq, if_neg hc]
      exact hinv r hr

/-- Witness for C6_invariant_preservation: the scenario store keeps the
invariant under force-complete and under force-fail. -/
theorem C6_invariant_preservation_witness :
    storeInv (recover_audio [stuckJob] "sec-1" recoveredUrl 301) ∧
    storeInv (reset_stuck_audio storySections1 [stuckJob] "story-1" 301) :=
  ⟨(C6_invariant_preservation [stuckJob]).1 "sec-1" recoveredUrl 301
      (by decide) (by decide),
    (C6_invariant_preservation [stuckJob]).2 storySections1 "story-1" 301
      (by decide) (by decide)⟩

/-- After a force-fail run, the story has no PROCESSING rows left: every
row of a stuck section was set to ERROR, and any remaining PROCESSING
row of the story would have put its own section on the stuck list. -/
theorem findStuckSections_reset_eq_nil (sections : List StorySection)
    (store : List AudioRow) (st : String) (now : Nat) :
    findStuckSections sections (reset_stuck_audio sections store st now) st =
      [] := by
  rw [List.eq_nil_iff_forall_not_mem]
  intro s hs
  rw [mem_findStuckSections] at hs
  obtain ⟨sa, hsa, h1, h2, h3⟩ := hs
  rw [reset_stuck_audio_eq_resetAll] at hsa
  unfold resetAll at hsa
  rw [List.mem_map] at hsa
  obtain ⟨r, hr, heq⟩ := hsa
  by_cases hc : r.section_id ∈ findStuckSections sections store st
  · rw [← heq, if_pos hc] at h2
    exact JobStatus.noConfusion h2
  · rw [← heq, if_neg hc] at h1 h2 h3
    exact hc (mem_findStuckSections.mpr ⟨r, hr, rfl, h2, h3⟩)

/-- After the force-complete write, the section has no PROCESSING row
left, provided every PROCESSING row of the section carried the voice
the read returned. -/
theorem recoverRead_recoverWrite_eq_none (store : List AudioRow)
    (sec v url : String) (now : Nat)
    (huniq : ∀ r ∈ store, r.section_id = sec →
      r.status = JobStatus.PROCESSING → r.voice_id = v) :
    recoverRead (recoverWrite store sec v url now) sec = none := by
  rw [recoverRead_eq_none]
  intro x hx hxs
  unfold recoverWrite at hx
  rw [List.mem_map] at hx
  obtain ⟨r, hr, heq⟩ := hx
  by_cases hc : r.section_id = sec ∧ r.voice_id = v
  · rw [← heq, if_pos hc]
    exact fun h => JobStatus.noConfusion h
  · rw [← heq, if_neg hc] at hxs ⊢
    intro hp
    exact hc ⟨hxs, huniq r hr hxs hp⟩

/-- A force-fail run whose read finds nothing writes nothing. -/
theorem reset_stuck_audio_of_no_stuck {sections : List StorySection}
    {store2 : List AudioRow} {st : String} (n : Nat)
    (h : findStuckSections sections store2 st = []) :
    reset_stuck_audio sections store2 st n = store2 := by
  unfold reset_stuck_audio
  rw [h]
  rfl

/-- C7: both remedies are idempotent.  A second force-fail of the same
story is a no-op (reported as no stuck entries) leaving the store
exactly as the first run left it; force-complete against a section
whose rows are all terminal is a no-op reported as already-updated; and
a second force-complete of the same stuck job (the section's only
PROCESSING voice) leaves the store exactly as the first run left it,
reporting already-updated. -/
theorem C7_idempotent (store : List AudioRow) (sections : List StorySection)
    (sec st url : String) :
    (∀ n1 n2,
      reset_stuck_audio sections (reset_stuck_audio sections store st n1)
          st n2 =
        reset_stuck_audio sections store st n1 ∧
      reset_stuck_audio_report sections
          (reset_stuck_audio sections store st n1) st =
        ResetReport.noStuckEntries) ∧
    (∀ url2 now,
      (∀ r ∈ store, r.section_id = sec → terminalStatus r.status = true) →
      recover_audio store sec url2 now = store ∧
      recover_audio_report store sec = RecoverReport.alreadyUpdated) ∧
    (∀ v n1 n2, recoverRead store sec = some v →
      (∀ r ∈ store, r.section_id = sec →
        r.status = JobStatus.PROCESSING → r.voice_id = v) →
      recover_audio (recover_audio store sec url n1) sec url n2 =
        recover_audio store sec url n1 ∧
      recover_audio_report (recover_audio store sec url n1) sec =
        RecoverReport.alreadyUpdated) := by
  refine ⟨?_, ?_, ?_⟩
  · intro n1 n2
    have hnil := findStuckSections_reset_eq_nil sections store st n1
    constructor
    · exact reset_stuck_audio_of_no_stuck n2 hnil
    · unfold reset_stuck_audio_report
      rw [hnil]
  · intro url2 now hterm
    have hnone : recoverRead store sec = none := by
      rw [recoverRead_eq_none]
      intro r hr hsec hp
      have := hterm r hr hsec
      rw [hp] at this
      exact Bool.noConfusion this
    constructor
    · unfold recover_audio
      rw [hnone]
    · unfold recover_audio_report
      rw [hnone]
  · intro v n1 n2 hv huniq
    have h1 : recover_audio store sec url n1 = recoverWrite store sec v url n1 := by
      unfold recover_audio
      rw [hv]
    have hnone := recoverRead_recoverWrite_eq_none store sec v url n1 huniq
    rw [h1]
    constructor
    · unfold recover_audio
      rw [hnone]
    · unfold recover_audio_report
      rw [hnone]

/-- Witness for C7_idempotent: concrete second runs are no-ops. -/
theorem C7_idempotent_witness :
    (reset_stuck_audio storySections1
        (reset_stuck_audio storySections1 [stuckJob] "story-1" 301)
        "story-1" 302 =
      reset_stuck_audio storySections1 [stuckJob] "story-1" 301) ∧
    (recover_audio [doneRow] "sec-9" "/audio/z.wav" 501 = [doneRow]) ∧
    (recover_audio (recover_audio [stuckJob] "sec-1" recoveredUrl 301)
        "sec-1" recoveredUrl 302 =
      recover_audio [stuckJob] "sec-1" recoveredUrl 301) :=
  ⟨((C7_idempotent [stuckJob] storySections1 "sec-1" "story-1"
      recoveredUrl).1 301 302).1,
    ((C7_idempotent [doneRow] [] "sec-9" "story-9" "/audio/z.wav").2.1
      "/audio/z.wav" 501 (by decide)).1,
    ((C7_idempotent [stuckJob] storySections1 "sec-1" "story-1"
      recoveredUrl).2.2 "v-1" 301 302 (by decide) (by decide)).1⟩

/-- Section sA of story-8, ordered second within the story (index 1). -/
def ssA : StorySection :=
  { id := "sA", story_id := "story-8", section_index := 1 }

/-- Section sB of story-8, ordered first within the story (index 0). -/
def ssB : StorySection :=
  { id := "sB", story_id := "story-8", section_index := 0 }

/-- Audio row created first (created_at 0), for the index-1 section. -/
def rowA8 : AudioRow :=
  { section_id := "sA", voice_id := "v-1", status := JobStatus.COMPLETE,
    audio_url := some "/api/audio/a.wav", error := none, created_at := 0,
    updated_at := 5, completed_at := some 5 }

/-- Audio row created second (created_at 1), for the index-0 section. -/
def rowB8 : AudioRow :=
  { section_id := "sB", voice_id := "v-1", status := JobStatus.COMPLETE,
    audio_url := some "/api/audio/b.wav", error := none, created_at := 1,
    updated_at := 6, completed_at := some 6 }

/-- C8: the claim fails on the code.  check_story_audio.py has no ORDER
BY clause: for a story whose table order (creation order) differs from
its section-index order, the listing comes back in table order — the
section-index sequence of the output is [1, 0], not ascending. -/
theorem C8_counterexample :
    check_story_audio [ssA, ssB] [rowA8, rowB8] "story-8" =
      [rowA8, rowB8] ∧
    List.filterMap (fun r => sectionIndexOf [ssA, ssB] r.section_id)
        (check_story_audio [ssA, ssB] [rowA8, rowB8] "story-8") = [1, 0] ∧
    ¬ List.Sorted (fun a b : Nat => a ≤ b)
        (List.filterMap (fun r => sectionIndexOf [ssA, ssB] r.section_id)
          (check_story_audio [ssA, ssB] [rowA8, rowB8] "story-8")) := by
  refine ⟨by decide, by decide, by decide⟩

/-- C8 (amended): the narration listing (check_story_narrations.py,
ORDER BY section_index ASC) returns exactly the story's rows — a
permutation of its WHERE-filter — in ascending section_index order; the
story_audio listing (check_story_audio.py) applies no ordering and
returns table order. -/
theorem C8_narrations_ordered (store : List NarrationRow) (st : String) :
    List.Sorted narLE (check_story_narrations store st) ∧
    List.Perm (check_story_narrations store st) (narRowsOf store st) ∧
    ∀ r, r ∈ check_story_narrations store st ↔ r ∈ store ∧ r.story_id = st := by
  refine ⟨List.sorted_insertionSort narLE (narRowsOf store st),
    List.perm_insertionSort narLE (narRowsOf store st), ?_⟩
  intro r
  rw [← mem_narRowsOf]
  exact (List.perm_insertionSort narLE (narRowsOf store st)).mem_iff

/-- Narration chunk 0 of the three-section story, COMPLETE. -/
def nar0 : NarrationRow :=
  { id := "n0", story_id := "story-3", section_index := 0,
    status := JobStatus.COMPLETE, audio_url := some "/api/audio/n0.wav",
    error := none, created_at := 0, updated_at := 3 }

/-- Narration chunk 1 of the three-section story, PROCESSING. -/
def nar1 : NarrationRow :=
  { id := "n1", story_id := "story-3", section_index := 1,
    status := JobStatus.PROCESSING, audio_url := none,
    error := none, created_at := 1, updated_at := 4 }

/-- Narration chunk 2 of the three-section story, ERROR. -/
def nar2 : NarrationRow :=
  { id := "n2", story_id := "story-3", section_index := 2,
    status := JobStatus.ERROR, audio_url := none,
    error := some "synthesis failed", created_at := 2, updated_at := 5 }

/-- Witness for C8_narrations_ordered: a 3-section story stored out of
index order yields exactly 3 entries in section-index order. -/
theorem C8_narrations_ordered_witness :
    List.Sorted narLE (check_story_narrations [nar2, nar0, nar1] "story-3") ∧
    check_story_narrations [nar2, nar0, nar1] "story-3" =
      [nar0, nar1, nar2] ∧
    (check_story_narrations [nar2, nar0, nar1] "story-3").length = 3 :=
  ⟨(C8_narrations_ordered [nar2, nar0, nar1] "story-3").1, by decide,
    by decide⟩

/-- First PROCESSING job of section sec-m, voice v-A. -/
def procA : AudioRow :=
  { section_id := "sec-m", voice_id := "v-A", status := JobStatus.PROCESSING,
    audio_url := none, error := none, created_at := 0, updated_at := 1,
    completed_at := none }

/-- Second PROCESSING job of section sec-m, voice v-B. -/
def procB : AudioRow :=
  { section_id := "sec-m", voice_id := "v-B", status := JobStatus.PROCESSING,
    audio_url := none, error := none, created_at := 2, updated_at := 3,
    completed_at := none }

/-- C10: one force-complete run takes its voice_id from a stored
PROCESSING row of the section (recover_audio takes no voice argument:
the voice written is the one read), rewrites exactly the rows keyed
(sec, that voice) — every other row is returned unchanged — and under
key uniqueness at most one position matches that key. -/
theorem C10_force_complete_frame (store : List AudioRow) (sec url : String)
    (now : Nat) (v : String) (hv : recoverRead store sec = some v)
    (hu : keysUnique store) :
    (∃ r ∈ store, r.section_id = sec ∧ r.voice_id = v ∧
      r.status = JobStatus.PROCESSING) ∧
    (∃ h : (recover_audio store sec url now).length = store.length,
      ∀ i : Fin store.length,
        (recover_audio store sec url now).get (Fin.cast h.symm i) =
          (if (store.get i).section_id = sec ∧ (store.get i).voice_id = v
            then completeUpdate (store.get i) url now else store.get i)) ∧
    (∀ i j : Fin store.length,
      (store.get i).section_id = sec → (store.get i).voice_id = v →
      (store.get j).section_id = sec → (store.get j).voice_id = v →
      i = j) := by
  have he : recover_audio store sec url now = recoverWrite store sec v url now := by
    unfold recover_audio
    rw [hv]
  refine ⟨?_, ?_, ?_⟩
  · obtain ⟨r, hr, h1, h2, h3⟩ := recoverRead_eq_some hv
    exact ⟨r, hr, h1, h3, h2⟩
  · rw [he]
    unfold recoverWrite
    refine ⟨by simp, ?_⟩
    intro i
    simp only [List.get_eq_getElem, Fin.coe_cast, List.getElem_map]
  · unfold keysUnique at hu
    intro i j hi1 hi2 hj1 hj2
    rcases lt_trichotomy i j with h | h | h
    · cases List.pairwise_iff_get.mp hu i j h with
      | inl hne => exact absurd (hi1.trans hj1.symm) hne
      | inr hne => exact absurd (hi2.trans hj2.symm) hne
    · exact h
    · cases List.pairwise_iff_get.mp hu j i h with
      | inl hne => exact absurd (hj1.trans hi1.symm) hne
      | inr hne => exact absurd (hj2.trans hi2.symm) hne

/-- Witness for C10_force_complete_frame: two PROCESSING voices of the
same section; the run updates only the (sec-m, v-A) row. -/
theorem C10_force_complete_frame_witness :
    (∃ r ∈ [procA, procB], r.section_id = "sec-m" ∧ r.voice_id = "v-A" ∧
      r.status = JobStatus.PROCESSING) ∧
    (∃ h : (recover_audio [procA, procB] "sec-m" recoveredUrl 700).length =
        [procA, procB].length,
      ∀ i : Fin [procA, procB].length,
        (recover_audio [procA, procB] "sec-m" recoveredUrl 700).get
            (Fin.cast h.symm i) =
          (if ([procA, procB].get i).section_id = "sec-m" ∧
              ([procA, procB].get i).voice_id = "v-A"
            then completeUpdate ([procA, procB].get i) recoveredUrl 700
            else [procA, procB].get i)) ∧
    (∀ i j : Fin [procA, procB].length,
      ([procA, procB].get i).section_id = "sec-m" →
      ([procA, procB].get i).voice_id = "v-A" →
      ([procA, procB].get j).section_id = "sec-m" →
      ([procA, procB].get j).voice_id = "v-A" →
      i = j) :=
  C10_force_complete_frame [procA, procB] "sec-m" recoveredUrl 700 "v-A"
    (by decide) (by decide)

/-- Non-terminal statuses are exactly PENDING and PROCESSING. -/
theorem nonterminal_iff (s : JobStatus) :
    terminalStatus s = false ↔
      s = JobStatus.PENDING ∨ s = JobStatus.PROCESSING := by
  cases s <;> simp [terminalStatus]

/-- C5: the worker path respects the state machine.  Any sequence of
attempted worker transitions moves the status only along the listed
edges (the result is reachable from the start through the step
relation); an attempted transition whose (current, requested) pair is
not a listed edge fails with IllegalTransition; and no worker-path
transition leaves a terminal state — every attempt out of COMPLETE or
ERROR fails with IllegalTransition.  The administrative scripts write
outside this function, matching the spec's explicit override carve-out. -/
theorem C5_state_machine :
    (∀ init ops, Relation.ReflTransGen stepRel init (applyOps init ops)) ∧
    (∀ cur req, legalEdge cur req = false →
      applyTransition cur req = Except.error StoreError.IllegalTransition) ∧
    (∀ cur req, terminalStatus cur = true →
      applyTransition cur req = Except.error StoreError.IllegalTransition) := by
  refine ⟨?_, ?_, ?_⟩
  · intro init ops
    induction ops generalizing init with
    | nil => exact Relation.ReflTransGen.refl
    | cons req rest ih =>
      have hstep : Relation.ReflTransGen stepRel init
          (match applyTransition init req with
            | Except.ok s => s
            | Except.error _ => init) := by
        unfold applyTransition
        by_cases h : legalEdge init req = true
        · rw [if_pos h]
          exact Relation.ReflTransGen.single h
        · rw [if_neg h]
      exact hstep.trans (ih _)
  · intro cur req h
    simp [applyTransition, h]
  · intro cur req h
    have hf : legalEdge cur req = false := by
      revert h
      cases cur <;> cases req <;> simp [terminalStatus, legalEdge]
    simp [applyTransition, hf]

/-- Witness for C5_state_machine: the normal worker trace and two
rejected escapes from COMPLETE. -/
theorem C5_state_machine_witness :
    Relation.ReflTransGen stepRel JobStatus.PENDING
      (applyOps JobStatus.PENDING
        [JobStatus.PROCESSING, JobStatus.COMPLETE]) ∧
    applyTransition JobStatus.PENDING JobStatus.COMPLETE =
      Except.error StoreError.IllegalTransition ∧
    applyTransition JobStatus.COMPLETE JobStatus.PROCESSING =
      Except.error StoreError.IllegalTransition :=
  ⟨C5_state_machine.1 JobStatus.PENDING
      [JobStatus.PROCESSING, JobStatus.COMPLETE],
    C5_state_machine.2.1 JobStatus.PENDING JobStatus.COMPLETE (by decide),
    C5_state_machine.2.2 JobStatus.COMPLETE JobStatus.PROCESSING (by decide)⟩

/-- C9: create fails with DuplicateActiveJob exactly when a PENDING or
PROCESSING job already exists for the key; when every prior job of the
key is terminal it succeeds, appending a fresh independent PENDING
record; and a successful create preserves the at-most-one-active-job-
per-key invariant. -/
theorem C9_create_spec (store : List Job) (k : String) (v : Option String)
    (now : Nat) :
    (create store k v now = Except.error StoreError.DuplicateActiveJob ↔
      ∃ j ∈ store, j.key = k ∧
        (j.status = JobStatus.PENDING ∨ j.status = JobStatus.PROCESSING)) ∧
    ((∀ j ∈ store, j.key = k → terminalStatus j.status = true) →
      create store k v now =
        Except.ok (store ++ [Job.mk k v JobStatus.PENDING now now])) ∧
    (∀ store2, atMostOneActive store →
      create store k v now = Except.ok store2 → atMostOneActive store2) := by
  refine ⟨?_, ?_, ?_⟩
  · by_cases h : hasActive store k
    · unfold create
      rw [if_pos h]
      constructor
      · intro _
        obtain ⟨j, hj, hk, hf⟩ := h
        exact ⟨j, hj, hk, (nonterminal_iff j.status).mp hf⟩
      · intro _
        rfl
    · unfold create
      rw [if_neg h]
      constructor
      · intro hc
        exact Except.noConfusion hc
      · intro hx
        obtain ⟨j, hj, hk, hs⟩ := hx
        exact absurd ⟨j, hj, hk, (nonterminal_iff j.status).mpr hs⟩ h
  · intro hterm
    have h : ¬ hasActive store k := by
      intro hx
      obtain ⟨j, hj, hk, hf⟩ := hx
      rw [hterm j hj hk] at hf
      exact Bool.noConfusion hf
    unfold create
    rw [if_neg h]
  · intro store2 hone hok
    by_cases h : hasActive store k
    · unfold create at hok
      rw [if_pos h] at hok
      exact Except.noConfusion hok
    · unfold create at hok
      rw [if_neg h] at hok
      have hs2 : store ++ [Job.mk k v JobStatus.PENDING now now] = store2 :=
        Except.ok.inj hok
      rw [← hs2]
      unfold atMostOneActive
      rw [List.pairwise_append]
      refine ⟨hone, List.pairwise_singleton _ _, ?_⟩
      intro a ha b hb
      rw [List.mem_singleton] at hb
      subst hb
      intro hcon
      exact h ⟨a, ha, hcon.1, hcon.2.1⟩

instance : DecidableRel fun a b : Job =>
    ¬(a.key = b.key ∧ terminalStatus a.status = false ∧
      terminalStatus b.status = false) := fun _ _ => by
  infer_instance

instance (store : List Job) : Decidable (atMostOneActive store) :=
  List.instDecidablePairwise store

/-- A prior, terminal (ERROR) job for the composite key. -/
def priorJob : Job := Job.mk "sec-1|v-1" (some "v-1") JobStatus.ERROR 0 5

/-- Witness for C9_create_spec: re-requesting a key whose prior job is
terminal succeeds and keeps at most one active job for the key. -/
theorem C9_create_spec_witness :
    create [priorJob] "sec-1|v-1" (some "v-1") 10 =
      Except.ok ([priorJob] ++
        [Job.mk "sec-1|v-1" (some "v-1") JobStatus.PENDING 10 10]) ∧
    atMostOneActive ([priorJob] ++
      [Job.mk "sec-1|v-1" (some "v-1") JobStatus.PENDING 10 10]) :=
  ⟨(C9_create_spec [priorJob] "sec-1|v-1" (some "v-1") 10).2.1 (by decide),
    (C9_create_spec [priorJob] "sec-1|v-1" (some "v-1") 10).2.2 _ (by decide)
      ((C9_create_spec [priorJob] "sec-1|v-1" (some "v-1") 10).2.1
        (by decide))⟩
